import Mathlib

/- Verification development for the Innago/UISP reconciliation engine
   (src/innago-uisp-integration).  The Python source is shallowly embedded:
   the ONU inventory operations of onu.py, the sync-cycle phases of sync.py,
   the inlined proration arithmetic of SyncEngine._create_prorate_credit,
   ticket classification/forwarding, and InnagoClient.get_lease_balance.
   Remote I/O is modelled by explicit oracles (success/failure parameters),
   mutation by state passing, and issued remote calls by event lists. -/

/-! ## Python string helpers -/

/-- Python substring containment `pat in text`, on character lists. -/
def charSeqContains : List Char → List Char → Bool
  | pat, [] => pat.isEmpty
  | pat, c :: rest => pat.isPrefixOf (c :: rest) || charSeqContains pat rest

/-- Python `pat in text` for strings. -/
def pyIn (pat text : String) : Bool :=
  charSeqContains pat.data text.data

/-- Python `s.lower()` (character-wise, as `str.lower` is on ASCII). -/
def pyLower (s : String) : String :=
  String.mk (s.data.map Char.toLower)

/-- `SyncEngine._matches_keywords`: any keyword (lower-cased) is contained in
the lower-cased text. -/
def matches_keywords (text : String) (keywords : List String) : Bool :=
  keywords.any (fun kw => pyIn (pyLower kw) (pyLower text))

/-! ## ONU inventory model (src/onu.py)

A CSV row of onu-inventory.csv; every field is a string, as in the CSV. -/

structure OnuRow where
  onu_name : String
  serial_number : String
  mac_address : String
  property : String
  unit : String
  date_added : String
  status : String
  uisp_id : String
deriving Repr, DecidableEq

/-- Property-name normalization used by `find_onu_by_unit` and
`generate_onu_name`: `property_name.lower().replace(' ', '-')` (replacing
the one-character pattern is the per-character substitution). -/
def normalize_property (p : String) : String :=
  String.mk ((pyLower p).data.map (fun c => if c = ' ' then '-' else c))

/-- `generate_onu_name`: `"350 S Harper" + "1" -> "350-s-harper-1"`. -/
def generate_onu_name (property_name unit : String) : String :=
  normalize_property property_name ++ "-" ++ unit

/-- Per-row match of `find_onu_by_unit`: first the property+unit columns,
then the `onu_name` column against the derived name. -/
def row_matches_unit (prop_normalized unit_str : String) (row : OnuRow) : Bool :=
  (normalize_property row.property == prop_normalized && row.unit == unit_str)
    || row.onu_name == (prop_normalized ++ "-" ++ unit_str)

/-- `find_onu_by_unit(property_name, unit)`: first row matching either
condition, scanning in order. -/
def find_onu_by_unit (inventory : List OnuRow) (property_name unit : String) :
    Option OnuRow :=
  inventory.find? (row_matches_unit (normalize_property property_name) unit)

/-- The row mutation performed by `update_onu_status` on the matching row:
set `status`; overwrite `uisp_id` only when a truthy (non-empty) value is
given; stamp `date_added` when moving to suspended/active and it was empty
(`today` stands for `datetime.now()`). -/
def apply_status_update (status : String) (uisp_id : Option String)
    (today : String) (row : OnuRow) : OnuRow :=
  { row with
    status := status
    uisp_id :=
      match uisp_id with
      | some u => if u == "" then row.uisp_id else u
      | none => row.uisp_id
    date_added :=
      if (status == "suspended" || status == "active") && row.date_added == ""
      then today else row.date_added }

/-- `update_onu_status(onu_name, status, uisp_id)`: update the first row
with the given name (the Python loop breaks after the first match). -/
def update_onu_status (inventory : List OnuRow) (onu_name status : String)
    (uisp_id : Option String) (today : String) : List OnuRow :=
  match inventory with
  | [] => []
  | row :: rest =>
    if row.onu_name == onu_name then
      apply_status_update status uisp_id today row :: rest
    else
      row :: update_onu_status rest onu_name status uisp_id today

/-- A call issued to the UISP network-management API (uisp.py, NMS client). -/
inductive NmsCall where
  | activateDevice (device_id : String)
  | setQoS (device_id : String) (download_mbps upload_mbps : Nat)
  | suspendDevice (device_id : String) (reason : String)
  | authorizeDevice (device_id : String) (onu_name : String) (site_id : String)
deriving Repr, DecidableEq

/-- `ONUProvisioner.activate_onu(property_name, unit, download_mbps,
upload_mbps)`.  `ok` is the remote-call oracle: a call with `ok c = false`
raises in Python, so the method logs and returns False without updating the
inventory.  Result: (return value, inventory after, NMS calls issued). -/
def activate_onu (ok : NmsCall → Bool) (today : String)
    (inventory : List OnuRow) (property_name unit : String)
    (download_mbps upload_mbps : Nat) :
    Bool × List OnuRow × List NmsCall :=
  match find_onu_by_unit inventory property_name unit with
  | none => (false, inventory, [])
  | some onu =>
    if onu.uisp_id == "" then (false, inventory, [])
    else
      let c1 := NmsCall.activateDevice onu.uisp_id
      if ok c1 then
        let c2 := NmsCall.setQoS onu.uisp_id download_mbps upload_mbps
        if ok c2 then
          (true, update_onu_status inventory onu.onu_name "active" none today,
            [c1, c2])
        else (false, inventory, [c1, c2])
      else (false, inventory, [c1])

/-- `ONUProvisioner.suspend_onu(property_name, unit, reason)`.  Returns True
with no remote call when the row is already suspended (local idempotence
check). -/
def suspend_onu (ok : NmsCall → Bool) (today : String)
    (inventory : List OnuRow) (property_name unit reason : String) :
    Bool × List OnuRow × List NmsCall :=
  match find_onu_by_unit inventory property_name unit with
  | none => (false, inventory, [])
  | some onu =>
    if onu.uisp_id == "" then (false, inventory, [])
    else if onu.status == "suspended" then (true, inventory, [])
    else
      let c := NmsCall.suspendDevice onu.uisp_id reason
      if ok c then
        (true, update_onu_status inventory onu.onu_name "suspended" none today,
          [c])
      else (false, inventory, [c])

/-- `ONUProvisioner.provision_onu(onu_name, serial)`: find the device by
serial in UISP, authorize it, suspend it awaiting a tenant, and record the
device id in the inventory. -/
def provision_onu (ok : NmsCall → Bool) (today site_id : String)
    (find_device_by_serial : String → Option String)
    (inventory : List OnuRow) (onu_name serial : String) :
    Bool × List OnuRow × List NmsCall :=
  match find_device_by_serial serial with
  | none => (false, inventory, [])
  | some device_id =>
    let c1 := NmsCall.authorizeDevice device_id onu_name site_id
    if ok c1 then
      let c2 := NmsCall.suspendDevice device_id
        "Awaiting tenant - Innago integration"
      if ok c2 then
        (true,
          update_onu_status inventory onu_name "suspended" (some device_id) today,
          [c1, c2])
      else (false, inventory, [c1, c2])
    else (false, inventory, [c1])

/-- Data-model invariant (spec section 3): an endpoint row with status
`active` has a non-empty externally-registered device identifier. -/
def active_implies_provisioned (inventory : List OnuRow) : Prop :=
  ∀ row ∈ inventory, row.status = "active" → row.uisp_id ≠ ""

instance (inventory : List OnuRow) :
    Decidable (active_implies_provisioned inventory) := by
  unfold active_implies_provisioned
  infer_instance

/-! ## Proration arithmetic (SyncEngine._create_prorate_credit, sync.py)

The engine inlines the calculation; it is embedded here as the pure
function of the spec, over exact rationals.  Python `round(x, 2)` is
round-half-to-even at two decimals. -/

/-- Round half to even (Python 3 `round` on an exact value). -/
def roundHalfEven (q : ℚ) : ℤ :=
  let n := ⌊q⌋
  let frac := q - (n : ℚ)
  if frac < 1 / 2 then n
  else if 1 / 2 < frac then n + 1
  else if n % 2 = 0 then n else n + 1

/-- Python `round(q, 2)` on an exact rational. -/
def round2 (q : ℚ) : ℚ :=
  (roundHalfEven (q * 100) : ℚ) / 100

/-- The proration calculation of `_create_prorate_credit`:
`days_remaining = days_in_month - day_of_month`; 0 when nothing remains;
`round(daily_rate * days_remaining, 2)` otherwise, suppressed below the
1.00 floor (`if credit_amount < 1: return`). -/
def compute_prorated_credit (monthly_rate : ℚ)
    (suspension_day days_in_month : ℤ) : ℚ :=
  let days_remaining := days_in_month - suspension_day
  if days_remaining ≤ 0 then 0
  else
    let daily_rate := monthly_rate / (days_in_month : ℚ)
    let credit := round2 (daily_rate * (days_remaining : ℚ))
    if credit < 1 then 0 else credit

/-! ## The sync cycle's phase structure (SyncEngine.run_sync, sync.py)

`run_sync` calls the four phases inside one `try` block; the single
`except` logs a `sync_error` event.  Each phase is abstracted to its
observable outcome: `Except.ok` when it returns, `Except.error e` when it
raises (e.g. the phase-level `get_leases` call fails). -/

inductive SyncPhase where
  | newLeases
  | endedLeases
  | billingStatus
  | maintenanceTickets
deriving Repr, DecidableEq

/-- `SyncEngine.run_sync`: run the four phases in order inside a single
try/except.  Returns the list of phases that ran to completion and the
`sync_error` log entries written (one entry when some phase raised). -/
def run_sync (p1 p2 p3 p4 : Except String Unit) :
    List SyncPhase × List String :=
  match p1 with
  | .error e => ([], [e])
  | .ok _ =>
    match p2 with
    | .error e => ([.newLeases], [e])
    | .ok _ =>
      match p3 with
      | .error e => ([.newLeases, .endedLeases], [e])
      | .ok _ =>
        match p4 with
        | .error e => ([.newLeases, .endedLeases, .billingStatus], [e])
        | .ok _ =>
          ([.newLeases, .endedLeases, .billingStatus, .maintenanceTickets], [])

/-! ## Lease sync records

The `synced_leases` store used by sync.py (`save_synced_lease`,
`get_synced_lease`, `get_active_leases`, `update_lease_status`,
`update_service_status`) belongs to a database revision that is not in
src/ (src/db.py carries the `units` schema instead); the record shape is
taken from the call sites in sync.py and the store operations are
modelled from the spec: an upsert store keyed by lease identifier, with
lifecycle status active/ended and service status active/suspended. -/

structure LeaseRecord where
  innago_lease_id : String
  innago_tenant_id : String
  uisp_client_id : String
  uisp_service_id : Option String
  unit_number : String
  property_address : Option String
  innago_charge_id : Option String
  current_package : String
  status : String
  service_status : Option String
deriving Repr, DecidableEq

/-- Modelled from the spec: `Database.get_synced_lease(lease_id)` of the
missing db revision — look up the record keyed by lease identifier. -/
def get_synced_lease (store : List LeaseRecord) (lease_id : String) :
    Option LeaseRecord :=
  store.find? (fun r => r.innago_lease_id == lease_id)

/-- Modelled from the spec: `Database.update_lease_status(lease_id, status)`
of the missing db revision — set the lifecycle status of the record keyed
by the lease identifier. -/
def update_lease_status (store : List LeaseRecord) (lease_id status : String) :
    List LeaseRecord :=
  store.map (fun r =>
    if r.innago_lease_id == lease_id then { r with status := status } else r)

/-! ## Billing-status drift reconciliation (SyncEngine.sync_uisp_billing_status) -/

/-- A UISP CRM service as read back by `get_services`: its id and its
status code (1 = active, 2 = suspended). -/
structure UispService where
  id : String
  status : Nat
deriving Repr, DecidableEq

/-- Observable actions of the drift-reconciliation loop body. -/
inductive DriftEvent where
  | onuSuspend (property_address unit_number : String)
  | prorateCredit
  | onuActivate (property_address unit_number : String)
  | setServiceStatus (lease_id status : String)
deriving Repr, DecidableEq

/-- Loop body of `sync_uisp_billing_status` for one synced lease record.
`services` is the outcome of the remote `get_services` call for the
record's client (`.error` = the call raised; the per-record `except`
swallows it).  Returns the ordered list of actions taken. -/
def process_billing_record (services : Except Unit (List UispService))
    (rec : LeaseRecord) : List DriftEvent :=
  match rec.uisp_service_id with
  | none => []
  | some sid =>
    match services with
    | .error _ => []
    | .ok svcs =>
      match svcs.find? (fun s => s.id == sid) with
      | none => []
      | some service =>
        let current_status := rec.service_status.getD "active"
        if service.status == 2 && current_status != "suspended" then
          (match rec.property_address with
           | some pa => [DriftEvent.onuSuspend pa rec.unit_number]
           | none => []) ++
          [DriftEvent.prorateCredit,
           DriftEvent.setServiceStatus rec.innago_lease_id "suspended"]
        else if service.status == 1 && current_status == "suspended" then
          (match rec.property_address with
           | some pa => [DriftEvent.onuActivate pa rec.unit_number]
           | none => []) ++
          [DriftEvent.setServiceStatus rec.innago_lease_id "active"]
        else []

/-- The whole drift phase: the loop body applied to every active synced
lease, events concatenated in order. -/
def sync_uisp_billing_status
    (services_of : String → Except Unit (List UispService))
    (active_leases : List LeaseRecord) : List DriftEvent :=
  (active_leases.map
    (fun r => process_billing_record (services_of r.uisp_client_id) r)).flatten

/-! ## Ended-lease reconciliation (SyncEngine.sync_ended_leases) -/

/-- Observable actions of the ended-lease loop body. -/
inductive EndedEvent where
  | crmUpdateService (service_id : String) (status : Nat)
  | nms (c : NmsCall)
  | deleteCharge (charge_id : String)
  | setLeaseStatus (lease_id status : String)
deriving Repr, DecidableEq

/-- Loop body of `sync_ended_leases` for one lease returned by the
ended-lease query.  `property_address` is extracted from the API lease
payload; the unit number comes from the sync record.  `ok` is the oracle
for the CRM/Innago calls (a failing call raises: the per-lease `except`
stops that lease's processing, leaving its record unchanged); `nmsOk`
drives the NMS calls made inside `suspend_onu`, whose failure does not
raise.  Returns the new store, the new ONU inventory, and the events. -/
def process_ended_lease (ok : EndedEvent → Bool) (nmsOk : NmsCall → Bool)
    (today : String) (store : List LeaseRecord) (inventory : List OnuRow)
    (lease_id : String) (property_address : Option String) :
    List LeaseRecord × List OnuRow × List EndedEvent :=
  match get_synced_lease store lease_id with
  | none => (store, inventory, [])
  | some rec =>
    if rec.status == "ended" then (store, inventory, [])
    else
      let unit_number := rec.unit_number
      -- update_service(uisp_service_id, {"status": 0})
      let step1 : Option (List EndedEvent) :=
        match rec.uisp_service_id with
        | some sid =>
          let e := EndedEvent.crmUpdateService sid 0
          if ok e then some [e] else none
        | none => some []
      match step1 with
      | none =>
        (store, inventory,
          match rec.uisp_service_id with
          | some sid => [EndedEvent.crmUpdateService sid 0]
          | none => [])
      | some evs1 =>
        -- suspend_onu(property_address, unit_number, reason=...) when both truthy
        let onuStep :=
          match property_address with
          | some pa =>
            if unit_number != "" then
              let r := suspend_onu nmsOk today inventory pa unit_number
                ("Lease ended: " ++ lease_id)
              (r.2.1, r.2.2.map EndedEvent.nms)
            else (inventory, [])
          | none => (inventory, [])
        let inventory1 := onuStep.1
        let evs2 := evs1 ++ onuStep.2
        -- delete_recurring_charge(innago_charge_id) when present
        let step3 : Option (List EndedEvent) :=
          match rec.innago_charge_id with
          | some cid =>
            let e := EndedEvent.deleteCharge cid
            if ok e then some (evs2 ++ [e]) else none
          | none => some evs2
        match step3 with
        | none =>
          (store, inventory1,
            evs2 ++
              (match rec.innago_charge_id with
               | some cid => [EndedEvent.deleteCharge cid]
               | none => []))
        | some evs3 =>
          (update_lease_status store lease_id "ended", inventory1,
            evs3 ++ [EndedEvent.setLeaseStatus lease_id "ended"])

/-- The whole ended-lease phase: fold the loop body over the leases
returned by the ended-lease query (pairs of lease id and the property
address extracted from the payload). -/
def sync_ended_leases (ok : EndedEvent → Bool) (nmsOk : NmsCall → Bool)
    (today : String) (store : List LeaseRecord) (inventory : List OnuRow)
    (ended : List (String × Option String)) :
    List LeaseRecord × List OnuRow × List EndedEvent :=
  match ended with
  | [] => (store, inventory, [])
  | (lease_id, pa) :: rest =>
    let r := process_ended_lease ok nmsOk today store inventory lease_id pa
    let rrest := sync_ended_leases ok nmsOk today r.1 r.2.1 rest
    (rrest.1, rrest.2.1, r.2.2 ++ rrest.2.2)

/-! ## Maintenance-ticket classification and forwarding
(SyncEngine.sync_maintenance_tickets, _handle_support_ticket,
_handle_upgrade_request) -/

/-- An Innago maintenance ticket as read by the engine.  `unitNumber`
models `ticket.get("unitNumber") or ticket.get("unit", {}).get("number")`
(absent/falsy collapsed to `none`). -/
structure Ticket where
  id : String
  subject : String
  description : String
  unitNumber : Option String
deriving Repr, DecidableEq

/-- One attempted match of the regex `unit\s*#?\s*(\d+)` (IGNORECASE) at
the head of the character list: the literal `unit`, optional whitespace,
an optional `#`, optional whitespace, then one or more digits (maximal). -/
def matchUnitAt (cs : List Char) : Option (List Char) :=
  match cs with
  | c1 :: c2 :: c3 :: c4 :: rest =>
    if pyLower (String.mk [c1, c2, c3, c4]) == "unit" then
      let r1 := rest.dropWhile Char.isWhitespace
      let r2 :=
        match r1 with
        | '#' :: r => r
        | _ => r1
      let r3 := r2.dropWhile Char.isWhitespace
      let ds := r3.takeWhile Char.isDigit
      if ds.isEmpty then none else some ds
    else none
  | _ => none

/-- `re.search` of the unit-number regex: leftmost match wins. -/
def searchUnitNumber : List Char → Option String
  | [] => none
  | c :: rest =>
    match matchUnitAt (c :: rest) with
    | some ds => some (String.mk ds)
    | none => searchUnitNumber rest

/-- `SyncEngine._extract_unit_from_ticket`: the ticket's unit field when
present, else the regex search over subject+description. -/
def extract_unit_from_ticket (t : Ticket) : Option String :=
  match t.unitNumber with
  | some u => some u
  | none => searchUnitNumber (t.subject ++ " " ++ t.description).data

/-- A configured package from config.yaml (`config.packages`). -/
structure Package where
  name : String
  base_price : ℚ
  uisp_plan_id : Option Int
deriving Repr, DecidableEq

/-- `SyncEngine.get_plan_id_for_package`: `str(package.get("uisp_plan_id"))`
(the Python string `"None"` when the key is missing). -/
def get_plan_id_for_package (p : Package) : String :=
  match p.uisp_plan_id with
  | some n => toString n
  | none => "None"

/-- Package resolution inside `_handle_upgrade_request`: scan the text for
speed tokens, then the catalog for a literal `"2G"`/`"1G"` name match. -/
def resolve_upgrade_package (text : String) (packages : List Package) :
    Option Package :=
  if pyIn "2g" text || pyIn "2000" text then
    packages.find? (fun p => pyIn "2G" p.name)
  else if pyIn "1g" text || pyIn "1000" text then
    packages.find? (fun p => pyIn "1G" p.name)
  else none

/-- Observable actions of the ticket-forwarding loop. -/
inductive TicketEvent where
  | createUispTicket (client_id subject message : String)
  | crmUpdateServicePlan (service_id : String) (plan_id : Int)
  | updateRecurringCharge (charge_id : String) (amount : ℚ)
  | dbUpdateLeasePackage (lease_id charge_id package_name : String)
  | saveSyncedTicket (innago_ticket_id uisp_ticket_id ticket_type : String)
deriving Repr, DecidableEq

/-- `SyncEngine._handle_support_ticket`.  `ok` is the remote-call oracle
(`createUispTicket` raising means no record is saved); `uisp_ticket_id`
is the id the CRM returns for the created ticket.  State: the set of
already-synced ticket ids (`synced_tickets` keys). -/
def handle_support_ticket (ok : TicketEvent → Bool) (uisp_ticket_id : String)
    (leases : List LeaseRecord) (synced : List String) (t : Ticket) :
    List String × List TicketEvent :=
  match extract_unit_from_ticket t with
  | none => (synced, [])
  | some unit =>
    match leases.find? (fun r => r.unit_number == unit) with
    | none => (synced, [])
    | some rec =>
      if rec.uisp_client_id == "" then (synced, [])
      else
        let e := TicketEvent.createUispTicket rec.uisp_client_id
          ("[Innago #" ++ t.id ++ "] " ++ t.subject) t.description
        if ok e then
          (synced ++ [t.id],
            [e, TicketEvent.saveSyncedTicket t.id uisp_ticket_id "support"])
        else (synced, [e])

/-- `SyncEngine._handle_upgrade_request`.  Early returns (no unit, no
package, no sync record) leave the state untouched and issue nothing; the
`try` block marks the ticket synced only when every call succeeded.  A
package with no `uisp_plan_id` makes `int("None")` raise before any remote
call. -/
def handle_upgrade_request (ok : TicketEvent → Bool)
    (packages : List Package) (leases : List LeaseRecord)
    (synced : List String) (t : Ticket) :
    List String × List TicketEvent :=
  match extract_unit_from_ticket t with
  | none => (synced, [])
  | some unit =>
    let text := pyLower (t.subject ++ " " ++ t.description)
    match resolve_upgrade_package text packages with
    | none => (synced, [])
    | some pkg =>
      match leases.find? (fun r => r.unit_number == unit) with
      | none => (synced, [])
      | some rec =>
        match rec.uisp_service_id with
        | none => (synced, [])
        | some sid =>
          match pkg.uisp_plan_id with
          | none => (synced, [])
          | some plan =>
            let e1 := TicketEvent.crmUpdateServicePlan sid plan
            if ok e1 then
              match rec.innago_charge_id with
              | some cid =>
                let e2 := TicketEvent.updateRecurringCharge cid pkg.base_price
                if ok e2 then
                  (synced ++ [t.id],
                    [e1, e2,
                     TicketEvent.dbUpdateLeasePackage rec.innago_lease_id cid
                       pkg.name,
                     TicketEvent.saveSyncedTicket t.id "" "upgrade"])
                else (synced, [e1, e2])
              | none =>
                (synced ++ [t.id],
                  [e1, TicketEvent.saveSyncedTicket t.id "" "upgrade"])
            else (synced, [e1])

/-- Loop body of `sync_maintenance_tickets` for one open ticket: dedup
check against `synced_tickets`, then keyword classification (upgrade
keywords first, else internet-support keywords, else skip). -/
def process_ticket (ok : TicketEvent → Bool) (uisp_ticket_id : String)
    (upgrade_keywords internet_keywords : List String)
    (packages : List Package) (leases : List LeaseRecord)
    (synced : List String) (t : Ticket) :
    List String × List TicketEvent :=
  if synced.contains t.id then (synced, [])
  else
    let combined := pyLower t.subject ++ " " ++ pyLower t.description
    if matches_keywords combined upgrade_keywords then
      handle_upgrade_request ok packages leases synced t
    else if matches_keywords combined internet_keywords then
      handle_support_ticket ok uisp_ticket_id leases synced t
    else (synced, [])

/-- The whole ticket phase: fold the loop body over the open tickets. -/
def sync_maintenance_tickets (ok : TicketEvent → Bool)
    (uisp_ticket_id : String) (upgrade_keywords internet_keywords : List String)
    (packages : List Package) (leases : List LeaseRecord)
    (synced : List String) : List Ticket → List String × List TicketEvent
  | [] => (synced, [])
  | t :: rest =>
    let r := process_ticket ok uisp_ticket_id upgrade_keywords
      internet_keywords packages leases synced t
    let rrest := sync_maintenance_tickets ok uisp_ticket_id upgrade_keywords
      internet_keywords packages leases r.1 rest
    (rrest.1, r.2 ++ rrest.2)

/-- Repeated sync cycles of the ticket phase over the same open-ticket
list (an unclassified or failed ticket stays unsynced and is re-examined
every cycle). -/
def run_ticket_cycles (ok : TicketEvent → Bool) (uisp_ticket_id : String)
    (upgrade_keywords internet_keywords : List String)
    (packages : List Package) (leases : List LeaseRecord)
    (tickets : List Ticket) :
    Nat → List String → List String × List TicketEvent
  | 0, synced => (synced, [])
  | n + 1, synced =>
    let r := sync_maintenance_tickets ok uisp_ticket_id upgrade_keywords
      internet_keywords packages leases synced tickets
    let rrest := run_ticket_cycles ok uisp_ticket_id upgrade_keywords
      internet_keywords packages leases tickets n r.1
    (rrest.1, r.2 ++ rrest.2)

/-! ## Delinquency enforcement (spec section 4.1, phase 2)

Modelled from the spec: the delinquency-enforcement phase is absent from
src/ — src/ only carries its declarations and helpers
(`Config.grace_period_day`, default 5, and the db `rent_status` /
`get_delinquent_units` helpers); no sync phase in src/sync.py implements
it.  Per the spec: the phase is skipped entirely before the configured
grace-period day-of-month; after it, a positive outstanding balance on an
active lease that is not yet marked delinquent suspends the endpoint and
marks the record, a non-positive balance on a marked record reactivates
and clears the mark, and the transition is edge-triggered. -/

inductive DelinqEvent where
  | suspend
  | reactivate
deriving Repr, DecidableEq

/-- Modelled from the spec: one delinquency check for one active lease in
one cycle.  State is the record's delinquent mark; the result is the new
mark and the endpoint calls issued. -/
def delinquency_check (grace_period_day day_of_month : Nat) (balance : ℚ)
    (marked : Bool) : Bool × List DelinqEvent :=
  if day_of_month < grace_period_day then (marked, [])
  else if 0 < balance ∧ marked = false then (true, [DelinqEvent.suspend])
  else if balance ≤ 0 ∧ marked = true then (false, [DelinqEvent.reactivate])
  else (marked, [])

/-- Modelled from the spec: consecutive sync cycles of the delinquency
check for one lease; each cycle supplies the day of month and the balance
read from the property-management system. -/
def run_delinquency_cycles (grace_period_day : Nat) :
    List (Nat × ℚ) → Bool → Bool × List DelinqEvent
  | [], marked => (marked, [])
  | (day, balance) :: rest, marked =>
    let r := delinquency_check grace_period_day day balance marked
    let rrest := run_delinquency_cycles grace_period_day rest r.1
    (rrest.1, r.2 ++ rrest.2)

/-! ## Lease balance lookup (InnagoClient.get_lease_balance, innago.py) -/

/-- The lease payload fields consulted by the direct lookup. -/
structure LeasePayload where
  balance : Option ℚ
  outstandingBalance : Option ℚ
deriving Repr, DecidableEq

/-- Python `a or b` over an optional numeric field (`None` and `0` are
falsy). -/
def pyOrQ (a : Option ℚ) (b : ℚ) : ℚ :=
  match a with
  | some x => if x = 0 then b else x
  | none => b

/-- `lease.get("balance") or lease.get("outstandingBalance") or 0`. -/
def lease_balance_field (p : LeasePayload) : ℚ :=
  pyOrQ p.balance (pyOrQ p.outstandingBalance 0)

/-- An invoice as consulted by the fallback path. -/
structure Invoice where
  status : String
  amount : ℚ
  amountPaid : ℚ
deriving Repr, DecidableEq

/-- The fallback summation: total `amount - amountPaid` over invoices in
an unpaid-like status. -/
def unpaid_total (invoices : List Invoice) : ℚ :=
  invoices.foldl
    (fun acc inv =>
      if inv.status = "unpaid" ∨ inv.status = "partially_paid" ∨
          inv.status = "overdue"
      then acc + (inv.amount - inv.amountPaid)
      else acc) 0

/-- `InnagoClient.get_lease_balance`: try the direct lease lookup; on any
exception fall back to summing unpaid invoices; on any exception there
return 0.  Both remote calls are oracles (`.error` = the call, or the
float conversion on its result, raised). -/
def get_lease_balance (direct : Except Unit LeasePayload)
    (invoices : Except Unit (List Invoice)) : ℚ :=
  match direct with
  | .ok lease => lease_balance_field lease
  | .error _ =>
    match invoices with
    | .ok invs => unpaid_total invs
    | .error _ => 0

/-! ## Claim theorems -/

/-- C4: `compute_prorated_credit` returns the two-decimal rounding of
`monthly_rate / days_in_month * (days_in_month - suspension_day)` when
days remain and that value reaches the 1.00 floor; it returns 0 when no
days remain or the credit is below the floor; the result is never
negative; and `compute_prorated_credit 45 20 30 = 15`. -/
theorem prorated_credit_spec :
    compute_prorated_credit 45 20 30 = 15 ∧
    (∀ (mr : ℚ) (d m : ℤ), m - d ≤ 0 → compute_prorated_credit mr d m = 0) ∧
    (∀ (mr : ℚ) (d m : ℤ), 0 < m - d →
      round2 (mr / (m : ℚ) * ((m - d : ℤ) : ℚ)) < 1 →
      compute_prorated_credit mr d m = 0) ∧
    (∀ (mr : ℚ) (d m : ℤ), 0 < m - d →
      1 ≤ round2 (mr / (m : ℚ) * ((m - d : ℤ) : ℚ)) →
      compute_prorated_credit mr d m =
        round2 (mr / (m : ℚ) * ((m - d : ℤ) : ℚ))) ∧
    (∀ (mr : ℚ) (d m : ℤ), 0 ≤ compute_prorated_credit mr d m) := by
  refine ⟨by norm_num [compute_prorated_credit, round2, roundHalfEven],
    ?_, ?_, ?_, ?_⟩
  · intro mr d m h
    simp only [compute_prorated_credit]
    rw [if_pos h]
  · intro mr d m h1 h2
    simp only [compute_prorated_credit]
    rw [if_neg (not_le.mpr h1), if_pos h2]
  · intro mr d m h1 h2
    simp only [compute_prorated_credit]
    rw [if_neg (not_le.mpr h1), if_neg (not_lt.mpr h2)]
  · intro mr d m
    simp only [compute_prorated_credit]
    split_ifs with h1 h2
    · exact le_refl 0
    · exact le_refl 0
    · linarith [not_lt.mp h2]

/-- C4 witness: the theorem applied at concrete inputs. -/
theorem prorated_credit_spec_witness :
    compute_prorated_credit 45 30 30 = 0 ∧
    compute_prorated_credit 45 20 30 =
      round2 ((45 : ℚ) / (30 : ℚ) * (((30 : ℤ) - 20 : ℤ) : ℚ)) :=
  ⟨prorated_credit_spec.2.1 45 30 30 (by norm_num),
   prorated_credit_spec.2.2.2.1 45 20 30 (by norm_num)
     (by norm_num [round2, roundHalfEven])⟩

/-- C10: `get_lease_balance` absorbs every remote failure: when the
direct lease lookup fails it sums unpaid invoices, when both fail it
returns 0, and that is the same value a fully-paid lease yields — the
delinquency signal fails open. -/
theorem get_lease_balance_fail_open :
    (∀ invs, get_lease_balance (Except.error ()) (Except.ok invs) =
      unpaid_total invs) ∧
    get_lease_balance (Except.error ()) (Except.error ()) = 0 ∧
    (∀ i, get_lease_balance (Except.ok (LeasePayload.mk (some 0) (some 0))) i
      = 0) ∧
    (∀ i, get_lease_balance (Except.error ()) (Except.error ()) =
      get_lease_balance (Except.ok (LeasePayload.mk (some 0) (some 0))) i) := by
  refine ⟨fun invs => rfl, rfl, fun i => ?_, fun i => ?_⟩ <;>
    simp [get_lease_balance, lease_balance_field, pyOrQ]

/-- C2: delinquency enforcement (modelled from the spec; the phase is not
in src/) is gated and edge-triggered: a cycle run before the grace-period
day issues nothing, and a balance positive over three consecutive cycles
on/after the grace day yields exactly one suspend call, on the first
crossing. -/
theorem delinquency_gate_and_edge :
    (∀ (g : Nat) (days : List (Nat × ℚ)) (m : Bool),
      (∀ p ∈ days, p.1 < g) →
      run_delinquency_cycles g days m = (m, [])) ∧
    (∀ (g d1 d2 d3 : Nat) (b1 b2 b3 : ℚ),
      g ≤ d1 → g ≤ d2 → g ≤ d3 → 0 < b1 → 0 < b2 → 0 < b3 →
      (run_delinquency_cycles g [(d1, b1), (d2, b2), (d3, b3)] false).2 =
        [DelinqEvent.suspend]) := by
  constructor
  · intro g days
    induction days with
    | nil => intro m _; rfl
    | cons p rest ih =>
      intro m h
      have hp : p.1 < g := h p (List.mem_cons_self p rest)
      simp only [run_delinquency_cycles, delinquency_check, if_pos hp]
      rw [ih m (fun q hq => h q (List.mem_cons_of_mem p hq))]
      rfl
  · intro g d1 d2 d3 b1 b2 b3 h1 h2 h3 hb1 hb2 hb3
    have e1 : delinquency_check g d1 b1 false = (true, [DelinqEvent.suspend]) := by
      unfold delinquency_check
      rw [if_neg (not_lt.mpr h1), if_pos ⟨hb1, rfl⟩]
    have e2 : delinquency_check g d2 b2 true = (true, []) := by
      unfold delinquency_check
      rw [if_neg (not_lt.mpr h2),
        if_neg (fun hc => Bool.noConfusion hc.2),
        if_neg (fun hc => absurd hc.1 (not_le.mpr hb2))]
    have e3 : delinquency_check g d3 b3 true = (true, []) := by
      unfold delinquency_check
      rw [if_neg (not_lt.mpr h3),
        if_neg (fun hc => Bool.noConfusion hc.2),
        if_neg (fun hc => absurd hc.1 (not_le.mpr hb3))]
    simp [run_delinquency_cycles, e1, e2, e3]

/-- C2 witness: the theorem applied at concrete inputs (grace day 5). -/
theorem delinquency_gate_and_edge_witness :
    run_delinquency_cycles 5 [(3, 10), (4, 10)] false = (false, []) ∧
    (run_delinquency_cycles 5 [(5, 10), (6, 10), (7, 10)] false).2 =
      [DelinqEvent.suspend] :=
  ⟨delinquency_gate_and_edge.1 5 [(3, 10), (4, 10)] false (by decide),
   delinquency_gate_and_edge.2 5 5 6 7 10 10 10 (by norm_num) (by norm_num)
     (by norm_num) (by norm_num) (by norm_num) (by norm_num)⟩

/-- C1 counterexample: with phase 2 (`sync_ended_leases`) raising, phases
3 and 4 do not execute in that cycle — `run_sync` has a single try/except
around all four phases, so the claimed per-phase isolation fails. -/
theorem run_sync_phase_isolation_cex :
    (run_sync (Except.ok ()) (Except.error "boom") (Except.ok ())
        (Except.ok ())).1 = [SyncPhase.newLeases] ∧
    SyncPhase.billingStatus ∉
      (run_sync (Except.ok ()) (Except.error "boom") (Except.ok ())
        (Except.ok ())).1 ∧
    SyncPhase.maintenanceTickets ∉
      (run_sync (Except.ok ()) (Except.error "boom") (Except.ok ())
        (Except.ok ())).1 := by
  refine ⟨rfl, ?_, ?_⟩ <;> decide

/-- C1 amended: the four phases run inside one try/except; the first
phase-level exception is logged (one `sync_error` entry) and aborts the
remaining phases of that cycle, while an exception-free cycle runs all
four phases in order. -/
theorem run_sync_single_try :
    (∀ (e : String) (p2 p3 p4 : Except String Unit),
      run_sync (Except.error e) p2 p3 p4 = ([], [e])) ∧
    (∀ (e : String) (p3 p4 : Except String Unit),
      run_sync (Except.ok ()) (Except.error e) p3 p4 =
        ([SyncPhase.newLeases], [e])) ∧
    (∀ (e : String) (p4 : Except String Unit),
      run_sync (Except.ok ()) (Except.ok ()) (Except.error e) p4 =
        ([SyncPhase.newLeases, SyncPhase.endedLeases], [e])) ∧
    (∀ e : String,
      run_sync (Except.ok ()) (Except.ok ()) (Except.ok ())
          (Except.error e) =
        ([SyncPhase.newLeases, SyncPhase.endedLeases,
          SyncPhase.billingStatus], [e])) ∧
    run_sync (Except.ok ()) (Except.ok ()) (Except.ok ()) (Except.ok ()) =
      ([SyncPhase.newLeases, SyncPhase.endedLeases, SyncPhase.billingStatus,
        SyncPhase.maintenanceTickets], []) :=
  ⟨fun _ _ _ _ => rfl, fun _ _ _ => rfl, fun _ _ => rfl, fun _ => rfl, rfl⟩

/-- C5 counterexample: activating an endpoint whose inventory row is
already `active` succeeds but still issues the remote activate and QoS
calls — `activate_onu` has no local already-active check (only
`suspend_onu` has the symmetric check). -/
theorem activate_onu_not_noop_cex :
    (find_onu_by_unit
        [OnuRow.mk "350-s-harper-1" "SN1" "AA:BB" "350 S Harper" "1"
          "2024-01-01" "active" "d1"]
        "350 S Harper" "1").map OnuRow.status = some "active" ∧
    activate_onu (fun _ => true) "2024-02-02"
        [OnuRow.mk "350-s-harper-1" "SN1" "AA:BB" "350 S Harper" "1"
          "2024-01-01" "active" "d1"]
        "350 S Harper" "1" 500 500 =
      (true,
        [OnuRow.mk "350-s-harper-1" "SN1" "AA:BB" "350 S Harper" "1"
          "2024-01-01" "active" "d1"],
        [NmsCall.activateDevice "d1", NmsCall.setQoS "d1" 500 500]) := by
  decide

/-- C5 amended: `suspend_onu` on an already-suspended provisioned endpoint
succeeds as a local no-op with no remote call; `activate_onu` on a
provisioned endpoint always re-issues the activate and QoS calls (it
succeeds on an already-active endpoint only because the remote calls
succeed, not through a local check). -/
theorem onu_idempotence_checked :
    (∀ (ok : NmsCall → Bool) (today : String) (inventory : List OnuRow)
        (p u reason : String) (onu : OnuRow),
      find_onu_by_unit inventory p u = some onu →
      onu.uisp_id ≠ "" →
      onu.status = "suspended" →
      suspend_onu ok today inventory p u reason = (true, inventory, [])) ∧
    (∀ (today : String) (inventory : List OnuRow) (p u : String)
        (d up : Nat) (onu : OnuRow),
      find_onu_by_unit inventory p u = some onu →
      onu.uisp_id ≠ "" →
      (activate_onu (fun _ => true) today inventory p u d up).2.2 =
        [NmsCall.activateDevice onu.uisp_id, NmsCall.setQoS onu.uisp_id d up]) := by
  constructor
  · intro ok today inventory p u reason onu hfind hid hstat
    simp [suspend_onu, hfind, beq_eq_false_iff_ne.mpr hid, hstat]
  · intro today inventory p u d up onu hfind hid
    simp [activate_onu, hfind, beq_eq_false_iff_ne.mpr hid]

/-- C5 witness: the amended theorem applied at a concrete inventory. -/
theorem onu_idempotence_checked_witness :
    suspend_onu (fun _ => true) "2024-02-02"
      [OnuRow.mk "350-s-harper-1" "SN1" "AA:BB" "350 S Harper" "1"
        "2024-01-01" "suspended" "d1"]
      "350 S Harper" "1" "Tenant moved out" =
    (true,
      [OnuRow.mk "350-s-harper-1" "SN1" "AA:BB" "350 S Harper" "1"
        "2024-01-01" "suspended" "d1"],
      []) :=
  onu_idempotence_checked.1 (fun _ => true) "2024-02-02"
    [OnuRow.mk "350-s-harper-1" "SN1" "AA:BB" "350 S Harper" "1"
      "2024-01-01" "suspended" "d1"]
    "350 S Harper" "1" "Tenant moved out"
    (OnuRow.mk "350-s-harper-1" "SN1" "AA:BB" "350 S Harper" "1"
      "2024-01-01" "suspended" "d1")
    (by decide) (by decide) (by decide)

/-- A row of the updated inventory is an original row or the update of an
original row carrying the targeted name. -/
theorem mem_update_onu_status_cases (inventory : List OnuRow)
    (name status : String) (uid : Option String) (today : String)
    (r : OnuRow) (hr : r ∈ update_onu_status inventory name status uid today) :
    r ∈ inventory ∨
      ∃ r0, r0 ∈ inventory ∧ r0.onu_name = name ∧
        r = apply_status_update status uid today r0 := by
  induction inventory with
  | nil => exact absurd hr (List.not_mem_nil r)
  | cons row rest ih =>
    unfold update_onu_status at hr
    cases hb : (row.onu_name == name) with
    | true =>
      simp only [hb, if_true] at hr
      rcases List.mem_cons.mp hr with h1 | h2
      · exact Or.inr ⟨row, List.mem_cons_self row rest, eq_of_beq hb, h1⟩
      · exact Or.inl (List.mem_cons_of_mem row h2)
    | false =>
      simp only [hb, Bool.false_eq_true, if_false] at hr
      rcases List.mem_cons.mp hr with h1 | h2
      · exact Or.inl (h1 ▸ List.mem_cons_self row rest)
      · rcases ih h2 with h3 | ⟨r0, hr0, hn, he⟩
        · exact Or.inl (List.mem_cons_of_mem row h3)
        · exact Or.inr ⟨r0, List.mem_cons_of_mem row hr0, hn, he⟩

/-- `update_onu_status` preserves the active-implies-provisioned
invariant provided an update to status `active` only ever lands on a row
whose resulting device id is non-empty. -/
theorem update_onu_status_preserves (inventory : List OnuRow)
    (name status : String) (uid : Option String) (today : String)
    (hinv : active_implies_provisioned inventory)
    (hsafe : status = "active" → ∀ r0, r0 ∈ inventory → r0.onu_name = name →
      (apply_status_update status uid today r0).uisp_id ≠ "") :
    active_implies_provisioned
      (update_onu_status inventory name status uid today) := by
  intro r hr hact
  rcases mem_update_onu_status_cases inventory name status uid today r hr with
    h | ⟨r0, hr0, hname, he⟩
  · exact hinv r h hact
  · have hst : status = "active" := by
      have : (apply_status_update status uid today r0).status = status := rfl
      rw [← he] at this
      rw [← this, hact]
    rw [he]
    exact hsafe hst r0 hr0 hname

/-- C9 counterexample: with two inventory rows sharing an `onu_name`,
`activate_onu` finds the provisioned row by its property+unit columns but
`update_onu_status` rewrites the first row carrying that name — an
unprovisioned row — to status `active`, breaking the invariant. -/
theorem active_invariant_cex :
    active_implies_provisioned
      [OnuRow.mk "weird" "" "" "x" "9" "" "pending" "",
       OnuRow.mk "weird" "SN2" "" "350 S Harper" "1" "" "suspended" "d1"] ∧
    ¬ active_implies_provisioned
        (activate_onu (fun _ => true) "2024-01-01"
          [OnuRow.mk "weird" "" "" "x" "9" "" "pending" "",
           OnuRow.mk "weird" "SN2" "" "350 S Harper" "1" "" "suspended" "d1"]
          "350 S Harper" "1" 500 500).2.1 := by
  constructor
  · decide
  · decide

/-- C9 amended: under the data-model keying of the inventory by endpoint
name (no duplicate `onu_name`), every provisioner operation preserves the
invariant that an `active` row has a non-empty device identifier; and
activation of a row with no device identifier fails with no inventory
change and no remote call. -/
theorem active_invariant_preserved :
    (∀ (ok : NmsCall → Bool) (today : String) (inventory : List OnuRow)
        (p u : String) (d up : Nat),
      (inventory.map OnuRow.onu_name).Nodup →
      active_implies_provisioned inventory →
      active_implies_provisioned
        (activate_onu ok today inventory p u d up).2.1) ∧
    (∀ (ok : NmsCall → Bool) (today : String) (inventory : List OnuRow)
        (p u reason : String),
      active_implies_provisioned inventory →
      active_implies_provisioned
        (suspend_onu ok today inventory p u reason).2.1) ∧
    (∀ (ok : NmsCall → Bool) (today site_id : String)
        (fds : String → Option String) (inventory : List OnuRow)
        (name serial : String),
      active_implies_provisioned inventory →
      active_implies_provisioned
        (provision_onu ok today site_id fds inventory name serial).2.1) ∧
    (∀ (ok : NmsCall → Bool) (today : String) (inventory : List OnuRow)
        (p u : String) (d up : Nat) (onu : OnuRow),
      find_onu_by_unit inventory p u = some onu →
      onu.uisp_id = "" →
      activate_onu ok today inventory p u d up = (false, inventory, [])) := by
  have hnotact : ∀ (uid : Option String) (today : String),
      ∀ r0 : OnuRow, ("suspended" : String) = "active" →
        (apply_status_update "suspended" uid today r0).uisp_id ≠ "" := by
    intro uid today r0 h
    exact absurd h (by decide)
  refine ⟨?_, ?_, ?_, ?_⟩
  · intro ok today inventory p u d up hnd hinv
    cases hfind : find_onu_by_unit inventory p u with
    | none => simpa [activate_onu, hfind] using hinv
    | some onu =>
      have honu : onu ∈ inventory := List.mem_of_find?_eq_some hfind
      cases hbe : (onu.uisp_id == "") with
      | true => simpa [activate_onu, hfind, hbe] using hinv
      | false =>
        have hid : onu.uisp_id ≠ "" := beq_eq_false_iff_ne.mp hbe
        have hsafe : ∀ r0, r0 ∈ inventory → r0.onu_name = onu.onu_name →
            (apply_status_update "active" none today r0).uisp_id ≠ "" := by
          intro r0 hr0 hname
          have : r0 = onu := List.inj_on_of_nodup_map hnd hr0 honu hname
          have hfield : (apply_status_update "active" none today r0).uisp_id =
              r0.uisp_id := rfl
          rw [hfield, this]
          exact hid
        cases hc1 : ok (NmsCall.activateDevice onu.uisp_id) with
        | false => simpa [activate_onu, hfind, hbe, hc1] using hinv
        | true =>
          cases hc2 : ok (NmsCall.setQoS onu.uisp_id d up) with
          | false => simpa [activate_onu, hfind, hbe, hc1, hc2] using hinv
          | true =>
            have hres : (activate_onu ok today inventory p u d up).2.1 =
                update_onu_status inventory onu.onu_name "active" none today := by
              simp [activate_onu, hfind, hbe, hc1, hc2]
            rw [hres]
            exact update_onu_status_preserves inventory onu.onu_name "active"
              none today hinv (fun _ => hsafe)
  · intro ok today inventory p u reason hinv
    cases hfind : find_onu_by_unit inventory p u with
    | none => simpa [suspend_onu, hfind] using hinv
    | some onu =>
      cases hbe : (onu.uisp_id == "") with
      | true => simpa [suspend_onu, hfind, hbe] using hinv
      | false =>
        cases hst : (onu.status == "suspended") with
        | true => simpa [suspend_onu, hfind, hbe, hst] using hinv
        | false =>
          cases hc : ok (NmsCall.suspendDevice onu.uisp_id reason) with
          | false => simpa [suspend_onu, hfind, hbe, hst, hc] using hinv
          | true =>
            have hres : (suspend_onu ok today inventory p u reason).2.1 =
                update_onu_status inventory onu.onu_name "suspended" none today := by
              simp [suspend_onu, hfind, hbe, hst, hc]
            rw [hres]
            exact update_onu_status_preserves inventory onu.onu_name
              "suspended" none today hinv
              (fun h => absurd h (by decide))
  · intro ok today site_id fds inventory name serial hinv
    cases hfds : fds serial with
    | none => simpa [provision_onu, hfds] using hinv
    | some device_id =>
      cases hc1 : ok (NmsCall.authorizeDevice device_id name site_id) with
      | false => simpa [provision_onu, hfds, hc1] using hinv
      | true =>
        cases hc2 : ok (NmsCall.suspendDevice device_id
            "Awaiting tenant - Innago integration") with
        | false => simpa [provision_onu, hfds, hc1, hc2] using hinv
        | true =>
          have hres :
              (provision_onu ok today site_id fds inventory name serial).2.1 =
                update_onu_status inventory name "suspended" (some device_id)
                  today := by
            simp [provision_onu, hfds, hc1, hc2]
          rw [hres]
          exact update_onu_status_preserves inventory name "suspended"
            (some device_id) today hinv (fun h => absurd h (by decide))
  · intro ok today inventory p u d up onu hfind hid
    simp [activate_onu, hfind, hid]

/-- C9 witness: the amended theorem applied at a concrete inventory. -/
theorem active_invariant_preserved_witness :
    active_implies_provisioned
      (activate_onu (fun _ => true) "2024-01-01"
        [OnuRow.mk "350-s-harper-1" "SN1" "" "350 S Harper" "1" ""
          "suspended" "d1"]
        "350 S Harper" "1" 500 500).2.1 ∧
    activate_onu (fun _ => true) "2024-01-01"
      [OnuRow.mk "350-s-harper-2" "SN2" "" "350 S Harper" "2" "" "pending" ""]
      "350 S Harper" "2" 500 500 =
    (false,
      [OnuRow.mk "350-s-harper-2" "SN2" "" "350 S Harper" "2" "" "pending" ""],
      []) :=
  ⟨active_invariant_preserved.1 (fun _ => true) "2024-01-01"
      [OnuRow.mk "350-s-harper-1" "SN1" "" "350 S Harper" "1" ""
        "suspended" "d1"]
      "350 S Harper" "1" 500 500 (by decide) (by decide),
   active_invariant_preserved.2.2.2 (fun _ => true) "2024-01-01"
      [OnuRow.mk "350-s-harper-2" "SN2" "" "350 S Harper" "2" "" "pending" ""]
      "350 S Harper" "2" 500 500
      (OnuRow.mk "350-s-harper-2" "SN2" "" "350 S Harper" "2" "" "pending" "")
      (by decide) (by decide)⟩

/-- Recognizer for endpoint-suspension events of the drift phase. -/
def is_onu_suspend : DriftEvent → Bool
  | .onuSuspend _ _ => true
  | _ => false

/-- C3 counterexample: a synced lease whose record carries no property
address gets its local status updated to suspended, and the prorated
credit computed, with zero endpoint suspend calls — the claimed
"exactly one suspend call" fails. -/
theorem drift_no_address_cex :
    process_billing_record (Except.ok [UispService.mk "s1" 2])
        (LeaseRecord.mk "L1" "T1" "C1" (some "s1") "7" none (some "ch1")
          "Village Fiber 500" "active" (some "active")) =
      [DriftEvent.prorateCredit,
       DriftEvent.setServiceStatus "L1" "suspended"] ∧
    ((process_billing_record (Except.ok [UispService.mk "s1" 2])
        (LeaseRecord.mk "L1" "T1" "C1" (some "s1") "7" none (some "ch1")
          "Village Fiber 500" "active" (some "active"))).filter
      is_onu_suspend).length = 0 := by
  constructor
  · decide
  · decide

/-- C3 amended: for a synced lease record carrying a property address,
the drift check on a billing-suspended/locally-unsuspended lease issues
exactly one endpoint suspend and one credit computation, in that order,
before the local status update; the symmetric reactivation holds; and
agreeing statuses produce no action. -/
theorem drift_reconciliation_events :
    (∀ (svcs : List UispService) (rec : LeaseRecord) (sid : String)
        (svc : UispService) (pa : String),
      rec.uisp_service_id = some sid →
      svcs.find? (fun s => s.id == sid) = some svc →
      svc.status = 2 →
      rec.service_status.getD "active" ≠ "suspended" →
      rec.property_address = some pa →
      process_billing_record (Except.ok svcs) rec =
        [DriftEvent.onuSuspend pa rec.unit_number, DriftEvent.prorateCredit,
         DriftEvent.setServiceStatus rec.innago_lease_id "suspended"]) ∧
    (∀ (svcs : List UispService) (rec : LeaseRecord) (sid : String)
        (svc : UispService) (pa : String),
      rec.uisp_service_id = some sid →
      svcs.find? (fun s => s.id == sid) = some svc →
      svc.status = 1 →
      rec.service_status.getD "active" = "suspended" →
      rec.property_address = some pa →
      process_billing_record (Except.ok svcs) rec =
        [DriftEvent.onuActivate pa rec.unit_number,
         DriftEvent.setServiceStatus rec.innago_lease_id "active"]) ∧
    (∀ (svcs : List UispService) (rec : LeaseRecord) (sid : String)
        (svc : UispService),
      rec.uisp_service_id = some sid →
      svcs.find? (fun s => s.id == sid) = some svc →
      svc.status = 2 →
      rec.service_status.getD "active" = "suspended" →
      process_billing_record (Except.ok svcs) rec = []) ∧
    (∀ (svcs : List UispService) (rec : LeaseRecord) (sid : String)
        (svc : UispService),
      rec.uisp_service_id = some sid →
      svcs.find? (fun s => s.id == sid) = some svc →
      svc.status = 1 →
      rec.service_status.getD "active" ≠ "suspended" →
      process_billing_record (Except.ok svcs) rec = []) := by
  refine ⟨?_, ?_, ?_, ?_⟩
  · intro svcs rec sid svc pa hsid hfind hst hcur hpa
    simp [process_billing_record, hsid, hfind, hst, hpa,
      beq_eq_false_iff_ne.mpr hcur, hcur]
  · intro svcs rec sid svc pa hsid hfind hst hcur hpa
    simp [process_billing_record, hsid, hfind, hst, hcur, hpa]
  · intro svcs rec sid svc hsid hfind hst hcur
    simp [process_billing_record, hsid, hfind, hst, hcur]
  · intro svcs rec sid svc hsid hfind hst hcur
    simp [process_billing_record, hsid, hfind, hst,
      beq_eq_false_iff_ne.mpr hcur, hcur]

/-- C3 witness: the amended theorem applied at a concrete record. -/
theorem drift_reconciliation_events_witness :
    process_billing_record (Except.ok [UispService.mk "s1" 2])
        (LeaseRecord.mk "L1" "T1" "C1" (some "s1") "7" (some "350 S Harper")
          (some "ch1") "Village Fiber 500" "active" (some "active")) =
      [DriftEvent.onuSuspend "350 S Harper" "7", DriftEvent.prorateCredit,
       DriftEvent.setServiceStatus "L1" "suspended"] :=
  drift_reconciliation_events.1 [UispService.mk "s1" 2]
    (LeaseRecord.mk "L1" "T1" "C1" (some "s1") "7" (some "350 S Harper")
      (some "ch1") "Village Fiber 500" "active" (some "active"))
    "s1" (UispService.mk "s1" 2) "350 S Harper"
    rfl (by decide) rfl (by decide) rfl

/-- C8 counterexample: a ticket matching an upgrade keyword and an
internet-support keyword, with no resolvable package, is left untouched
by the cycle — no support forward happens (the classification is
`if`/`elif`, so a matched upgrade keyword pre-empts the support branch
even when package resolution fails). -/
theorem upgrade_fallthrough_cex :
    process_ticket (fun _ => true) "U9" ["upgrade", "1g", "2g", "gigabit"]
        ["internet", "wifi", "slow"]
        [Package.mk "Village Fiber 500" 45 (some 1)]
        [LeaseRecord.mk "L7" "T7" "C7" (some "s7") "7" (some "350 S Harper")
          (some "ch7") "Village Fiber 500" "active" (some "active")]
        [] (Ticket.mk "t1" "Internet upgrade" "wifi down" (some "7")) =
      ([], []) ∧
    matches_keywords "internet upgrade wifi down"
      ["upgrade", "1g", "2g", "gigabit"] = true ∧
    matches_keywords "internet upgrade wifi down"
      ["internet", "wifi", "slow"] = true ∧
    resolve_upgrade_package "internet upgrade wifi down"
      [Package.mk "Village Fiber 500" 45 (some 1)] = none := by
  refine ⟨?_, ?_, ?_, ?_⟩ <;> decide

/-- C8 amended: when the upgrade keywords match but no package resolves,
the loop body leaves the ticket unhandled for that cycle — nothing is
forwarded and nothing is recorded (so the ticket is re-examined next
cycle); the support branch is not reached in the same cycle. -/
theorem upgrade_no_fallthrough :
    ∀ (ok : TicketEvent → Bool) (utid : String) (kwU kwI : List String)
      (pkgs : List Package) (leases : List LeaseRecord)
      (synced : List String) (t : Ticket),
      synced.contains t.id = false →
      matches_keywords (pyLower t.subject ++ " " ++ pyLower t.description)
        kwU = true →
      resolve_upgrade_package (pyLower (t.subject ++ " " ++ t.description))
        pkgs = none →
      process_ticket ok utid kwU kwI pkgs leases synced t = (synced, []) := by
  intro ok utid kwU kwI pkgs leases synced t hc hkw hres
  cases hext : extract_unit_from_ticket t with
  | none => simp [process_ticket, hc, hkw, handle_upgrade_request, hext]
  | some u => simp [process_ticket, hc, hkw, handle_upgrade_request, hext, hres]

/-- C8 witness: the amended theorem applied at a concrete ticket. -/
theorem upgrade_no_fallthrough_witness :
    process_ticket (fun _ => true) "U9" ["upgrade", "1g", "2g", "gigabit"]
      ["internet", "wifi", "slow"]
      [Package.mk "Village Fiber 500" 45 (some 1)]
      [LeaseRecord.mk "L7" "T7" "C7" (some "s7") "7" (some "350 S Harper")
        (some "ch7") "Village Fiber 500" "active" (some "active")]
      [] (Ticket.mk "t1" "Internet upgrade" "wifi down" (some "7")) =
    ([], []) :=
  upgrade_no_fallthrough (fun _ => true) "U9" ["upgrade", "1g", "2g", "gigabit"]
    ["internet", "wifi", "slow"]
    [Package.mk "Village Fiber 500" 45 (some 1)]
    [LeaseRecord.mk "L7" "T7" "C7" (some "s7") "7" (some "350 S Harper")
      (some "ch7") "Village Fiber 500" "active" (some "active")]
    [] (Ticket.mk "t1" "Internet upgrade" "wifi down" (some "7"))
    (by decide) (by decide) (by decide)

/-- Cycles over a single already-synced ticket change nothing and issue
nothing. -/
theorem run_ticket_cycles_fixed (ok : TicketEvent → Bool) (utid : String)
    (kwU kwI : List String) (pkgs : List Package) (leases : List LeaseRecord)
    (t : Ticket) :
    ∀ (n : Nat) (S : List String), S.contains t.id = true →
      run_ticket_cycles ok utid kwU kwI pkgs leases [t] n S = (S, []) := by
  intro n
  induction n with
  | zero => intro S _; rfl
  | succ n ih =>
    intro S h
    have hm : t.id ∈ S := by simpa using h
    have hstep : sync_maintenance_tickets ok utid kwU kwI pkgs leases S [t] =
        (S, []) := by
      simp [sync_maintenance_tickets, process_ticket, hm]
    simp [run_ticket_cycles, hstep, ih S h]

/-- C7: forwarding a support ticket is idempotent across cycles — over any
number of cycles the ticket is forwarded once (one remote ticket-creation
call, one record saved after it), the forward record gains exactly one
entry, every later cycle skips the id as already synced, and a failed
creation call records nothing. -/
theorem ticket_dedup_exactly_once (utid : String) (kwU kwI : List String)
    (pkgs : List Package) (leases : List LeaseRecord) (synced : List String)
    (t : Ticket) (u : String) (rec : LeaseRecord) (n : Nat)
    (h1 : t.id ∉ synced)
    (h2 : matches_keywords (pyLower t.subject ++ " " ++ pyLower t.description)
      kwU = false)
    (h3 : matches_keywords (pyLower t.subject ++ " " ++ pyLower t.description)
      kwI = true)
    (h4 : extract_unit_from_ticket t = some u)
    (h5 : leases.find? (fun r => r.unit_number == u) = some rec)
    (h6 : rec.uisp_client_id ≠ "") :
    run_ticket_cycles (fun _ => true) utid kwU kwI pkgs leases [t] (n + 1)
        synced =
      (synced ++ [t.id],
        [TicketEvent.createUispTicket rec.uisp_client_id
            ("[Innago #" ++ t.id ++ "] " ++ t.subject) t.description,
         TicketEvent.saveSyncedTicket t.id utid "support"]) ∧
    (synced ++ [t.id]).count t.id = 1 ∧
    (∀ okf : TicketEvent → Bool,
      okf (TicketEvent.createUispTicket rec.uisp_client_id
        ("[Innago #" ++ t.id ++ "] " ++ t.subject) t.description) = false →
      process_ticket okf utid kwU kwI pkgs leases synced t =
        (synced,
          [TicketEvent.createUispTicket rec.uisp_client_id
            ("[Innago #" ++ t.id ++ "] " ++ t.subject) t.description])) := by
  have hcontains : synced.contains t.id = false := by simpa using h1
  have hproc : process_ticket (fun _ => true) utid kwU kwI pkgs leases
      synced t =
      (synced ++ [t.id],
        [TicketEvent.createUispTicket rec.uisp_client_id
            ("[Innago #" ++ t.id ++ "] " ++ t.subject) t.description,
         TicketEvent.saveSyncedTicket t.id utid "support"]) := by
    simp [process_ticket, hcontains, h2, h3, handle_support_ticket, h4, h5,
      beq_eq_false_iff_ne.mpr h6, h1]
  have hcycle : sync_maintenance_tickets (fun _ => true) utid kwU kwI pkgs
      leases synced [t] =
      (synced ++ [t.id],
        [TicketEvent.createUispTicket rec.uisp_client_id
            ("[Innago #" ++ t.id ++ "] " ++ t.subject) t.description,
         TicketEvent.saveSyncedTicket t.id utid "support"]) := by
    simp [sync_maintenance_tickets, hproc]
  have hmem : (synced ++ [t.id]).contains t.id = true := by simp
  refine ⟨?_, ?_, ?_⟩
  · simp [run_ticket_cycles, hcycle,
      run_ticket_cycles_fixed (fun _ => true) utid kwU kwI pkgs leases t n
        (synced ++ [t.id]) hmem]
  · simp [List.count_append, List.count_eq_zero.mpr h1]
  · intro okf hok
    simp [process_ticket, hcontains, h2, h3, handle_support_ticket, h4, h5,
      beq_eq_false_iff_ne.mpr h6, hok, h1]

/-- C7 witness: the theorem applied to a concrete support ticket over two
cycles. -/
theorem ticket_dedup_exactly_once_witness :
    run_ticket_cycles (fun _ => true) "U1" ["upgrade", "1g", "2g", "gigabit"]
        ["internet"] [Package.mk "Village Fiber 500" 45 (some 1)]
        [LeaseRecord.mk "L7" "T7" "C7" (some "s7") "7" (some "350 S Harper")
          (some "ch7") "Village Fiber 500" "active" (some "active")]
        [Ticket.mk "t2" "No internet" "help" (some "7")] (1 + 1) [] =
      (["t2"],
        [TicketEvent.createUispTicket "C7" "[Innago #t2] No internet" "help",
         TicketEvent.saveSyncedTicket "t2" "U1" "support"]) :=
  (ticket_dedup_exactly_once "U1" ["upgrade", "1g", "2g", "gigabit"]
    ["internet"] [Package.mk "Village Fiber 500" 45 (some 1)]
    [LeaseRecord.mk "L7" "T7" "C7" (some "s7") "7" (some "350 S Harper")
      (some "ch7") "Village Fiber 500" "active" (some "active")]
    [] (Ticket.mk "t2" "No internet" "help" (some "7")) "7"
    (LeaseRecord.mk "L7" "T7" "C7" (some "s7") "7" (some "350 S Harper")
      (some "ch7") "Village Fiber 500" "active" (some "active"))
    1 (by decide) (by decide) (by decide) (by decide) (by decide)
    (by decide)).1

/-- Repeated sync cycles of the ended-lease phase over the same
ended-lease query result, accumulating events. -/
def run_ended_cycles (ok : EndedEvent → Bool) (nmsOk : NmsCall → Bool)
    (today : String) (ended : List (String × Option String)) :
    Nat → List LeaseRecord × List OnuRow →
      List LeaseRecord × List OnuRow × List EndedEvent
  | 0, st => (st.1, st.2, [])
  | n + 1, st =>
    let r := sync_ended_leases ok nmsOk today st.1 st.2 ended
    let rrest := run_ended_cycles ok nmsOk today ended n (r.1, r.2.1)
    (rrest.1, rrest.2.1, r.2.2 ++ rrest.2.2)

/-- Recognizer for remote device-suspension events of the ended-lease
phase. -/
def is_nms_suspend : EndedEvent → Bool
  | .nms (NmsCall.suspendDevice _ _) => true
  | _ => false

/-- C6 counterexample: the ended-lease handler takes the property address
from the API payload, not the stored record; with a payload carrying no
address, the record still transitions to `ended` (and the charge is
deleted) but the bound, provisioned endpoint — resolvable from the stored
address — is never suspended, so "suspended exactly once" fails. -/
theorem ended_lease_no_suspend_cex :
    sync_ended_leases (fun _ => true) (fun _ => true) "2024-06-01"
        [LeaseRecord.mk "L1" "T1" "C1" (some "s1") "1" (some "350 S Harper")
          (some "ch1") "Village Fiber 500" "active" (some "active")]
        [OnuRow.mk "350-s-harper-1" "SN1" "" "350 S Harper" "1" ""
          "active" "d1"]
        [("L1", none)] =
      ([LeaseRecord.mk "L1" "T1" "C1" (some "s1") "1" (some "350 S Harper")
          (some "ch1") "Village Fiber 500" "ended" (some "active")],
       [OnuRow.mk "350-s-harper-1" "SN1" "" "350 S Harper" "1" ""
          "active" "d1"],
       [EndedEvent.crmUpdateService "s1" 0, EndedEvent.deleteCharge "ch1",
        EndedEvent.setLeaseStatus "L1" "ended"]) ∧
    find_onu_by_unit
        [OnuRow.mk "350-s-harper-1" "SN1" "" "350 S Harper" "1" ""
          "active" "d1"]
        "350 S Harper" "1" =
      some (OnuRow.mk "350-s-harper-1" "SN1" "" "350 S Harper" "1" ""
        "active" "d1") ∧
    ((sync_ended_leases (fun _ => true) (fun _ => true) "2024-06-01"
        [LeaseRecord.mk "L1" "T1" "C1" (some "s1") "1" (some "350 S Harper")
          (some "ch1") "Village Fiber 500" "active" (some "active")]
        [OnuRow.mk "350-s-harper-1" "SN1" "" "350 S Harper" "1" ""
          "active" "d1"]
        [("L1", none)]).2.2.filter is_nms_suspend).length = 0 := by
  refine ⟨?_, ?_, ?_⟩ <;> decide

/-- Updating a lease's lifecycle status rewrites exactly the looked-up
record's status field. -/
theorem get_synced_lease_update (store : List LeaseRecord) (L s : String)
    (rec : LeaseRecord) (h : get_synced_lease store L = some rec) :
    get_synced_lease (update_lease_status store L s) L =
      some { rec with status := s } := by
  have h' : List.find? (fun r : LeaseRecord => r.innago_lease_id == L) store =
      some rec := h
  have hid : (rec.innago_lease_id == L) = true := by
    have hp := List.find?_some h'
    simpa using hp
  have hcomp : ((fun r : LeaseRecord => r.innago_lease_id == L) ∘
      (fun r : LeaseRecord =>
        if r.innago_lease_id == L then { r with status := s } else r)) =
      (fun r : LeaseRecord => r.innago_lease_id == L) := by
    funext r
    cases hb : (r.innago_lease_id == L) with
    | true => simp [Function.comp, hb]
    | false => simp [Function.comp, hb]
  show List.find? (fun r : LeaseRecord => r.innago_lease_id == L)
      (store.map (fun r : LeaseRecord =>
        if r.innago_lease_id == L then { r with status := s } else r)) =
      some { rec with status := s }
  rw [List.find?_map, hcomp, h']
  simp [hid]
  intro hne
  exact absurd (eq_of_beq hid) hne

/-- C6 amended: provided the ended-lease payload carries a property
address, the record is active and complete, and the bound endpoint is
provisioned and not yet suspended, one cycle moves the record to `ended`
and issues exactly one device suspension (the event list is explicit),
and every further cycle is a no-op with no events. -/
theorem ended_lease_exactly_once (today L p sid cid : String)
    (store : List LeaseRecord) (inventory : List OnuRow)
    (rec : LeaseRecord) (onu : OnuRow)
    (h1 : get_synced_lease store L = some rec)
    (h2 : rec.status = "active")
    (h3 : rec.unit_number ≠ "")
    (h4 : rec.uisp_service_id = some sid)
    (h5 : rec.innago_charge_id = some cid)
    (h6 : find_onu_by_unit inventory p rec.unit_number = some onu)
    (h7 : onu.uisp_id ≠ "")
    (h8 : onu.status ≠ "suspended") :
    sync_ended_leases (fun _ => true) (fun _ => true) today store inventory
        [(L, some p)] =
      (update_lease_status store L "ended",
       update_onu_status inventory onu.onu_name "suspended" none today,
       [EndedEvent.crmUpdateService sid 0,
        EndedEvent.nms (NmsCall.suspendDevice onu.uisp_id
          ("Lease ended: " ++ L)),
        EndedEvent.deleteCharge cid,
        EndedEvent.setLeaseStatus L "ended"]) ∧
    (∀ k : Nat,
      run_ended_cycles (fun _ => true) (fun _ => true) today [(L, some p)] k
          (update_lease_status store L "ended",
           update_onu_status inventory onu.onu_name "suspended" none today) =
        (update_lease_status store L "ended",
         update_onu_status inventory onu.onu_name "suspended" none today,
         [])) := by
  have hsusp : suspend_onu (fun _ => true) today inventory p rec.unit_number
      ("Lease ended: " ++ L) =
      (true, update_onu_status inventory onu.onu_name "suspended" none today,
        [NmsCall.suspendDevice onu.uisp_id ("Lease ended: " ++ L)]) := by
    simp [suspend_onu, h6, beq_eq_false_iff_ne.mpr h7,
      beq_eq_false_iff_ne.mpr h8]
  have hproc : process_ended_lease (fun _ => true) (fun _ => true) today
      store inventory L (some p) =
      (update_lease_status store L "ended",
       update_onu_status inventory onu.onu_name "suspended" none today,
       [EndedEvent.crmUpdateService sid 0,
        EndedEvent.nms (NmsCall.suspendDevice onu.uisp_id
          ("Lease ended: " ++ L)),
        EndedEvent.deleteCharge cid,
        EndedEvent.setLeaseStatus L "ended"]) := by
    simp [process_ended_lease, h1, h2, h4, h5, hsusp,
      beq_eq_false_iff_ne.mpr h3, h3]
  refine ⟨by simp [sync_ended_leases, hproc], ?_⟩
  have hrec2 : get_synced_lease (update_lease_status store L "ended") L =
      some { rec with status := "ended" } :=
    get_synced_lease_update store L "ended" rec h1
  have hskip : process_ended_lease (fun _ => true) (fun _ => true) today
      (update_lease_status store L "ended")
      (update_onu_status inventory onu.onu_name "suspended" none today)
      L (some p) =
      (update_lease_status store L "ended",
       update_onu_status inventory onu.onu_name "suspended" none today,
       []) := by
    simp [process_ended_lease, hrec2]
  have hcycle : sync_ended_leases (fun _ => true) (fun _ => true) today
      (update_lease_status store L "ended")
      (update_onu_status inventory onu.onu_name "suspended" none today)
      [(L, some p)] =
      (update_lease_status store L "ended",
       update_onu_status inventory onu.onu_name "suspended" none today,
       []) := by
    simp [sync_ended_leases, hskip]
  intro k
  induction k with
  | zero => rfl
  | succ k ih => simp [run_ended_cycles, hcycle, ih]

/-- C6 witness: the amended theorem applied at a concrete store and
inventory, iterated three further cycles. -/
theorem ended_lease_exactly_once_witness :
    sync_ended_leases (fun _ => true) (fun _ => true) "2024-06-01"
        [LeaseRecord.mk "L1" "T1" "C1" (some "s1") "1" (some "350 S Harper")
          (some "ch1") "Village Fiber 500" "active" (some "active")]
        [OnuRow.mk "350-s-harper-1" "SN1" "" "350 S Harper" "1" ""
          "active" "d1"]
        [("L1", some "350 S Harper")] =
      (update_lease_status
        [LeaseRecord.mk "L1" "T1" "C1" (some "s1") "1" (some "350 S Harper")
          (some "ch1") "Village Fiber 500" "active" (some "active")]
        "L1" "ended",
       update_onu_status
        [OnuRow.mk "350-s-harper-1" "SN1" "" "350 S Harper" "1" ""
          "active" "d1"]
        "350-s-harper-1" "suspended" none "2024-06-01",
       [EndedEvent.crmUpdateService "s1" 0,
        EndedEvent.nms (NmsCall.suspendDevice "d1" "Lease ended: L1"),
        EndedEvent.deleteCharge "ch1",
        EndedEvent.setLeaseStatus "L1" "ended"]) :=
  (ended_lease_exactly_once "2024-06-01" "L1" "350 S Harper" "s1" "ch1"
    [LeaseRecord.mk "L1" "T1" "C1" (some "s1") "1" (some "350 S Harper")
      (some "ch1") "Village Fiber 500" "active" (some "active")]
    [OnuRow.mk "350-s-harper-1" "SN1" "" "350 S Harper" "1" "" "active" "d1"]
    (LeaseRecord.mk "L1" "T1" "C1" (some "s1") "1" (some "350 S Harper")
      (some "ch1") "Village Fiber 500" "active" (some "active"))
    (OnuRow.mk "350-s-harper-1" "SN1" "" "350 S Harper" "1" "" "active" "d1")
    (by decide) (by decide) (by decide) (by decide) (by decide) (by decide)
    (by decide) (by decide)).1
